import Mathlib

/-!
Shallow embedding of the admin-app catalog console (App.tsx and api.ts).

The embedding models:
- the JS object the submit handler builds (`productData`) as an association
  list of string keys to JS values, with JS `delete` / assignment / truthiness;
- the form state, the transient image file, the edit target and the catalog
  snapshot as an explicit application state record;
- the event handlers (`handleSubmit`, `handleDelete`, `handleEdit`,
  `handleCancelEdit`, the category-select and image-input change handlers) as
  pure state transformers; the three network round trips (image upload,
  create/update/delete mutation, catalog reload) are oracled by explicit
  result parameters, and every transport request the handler issues is
  recorded in an outbound call trace.
-/

namespace AdminApp

/-- A JS value occurring in the outbound payload: a string field, or the
number produced by `parseInt` (where `none` stands for `NaN`). -/
inductive Value where
  | str (s : String)
  | num (n : Option Int)
deriving DecidableEq, Repr

/-- A JS object, as the submit handler manipulates it: keys to values. -/
abbrev Obj := List (String × Value)

/-- Property read `o[k]`: `none` when the key is absent. -/
def jsGet (k : String) (o : Obj) : Option Value :=
  (o.find? (fun p => p.1 = k)).map (fun p => p.2)

/-- JS `delete o[k]`. -/
def jsDelete (k : String) (o : Obj) : Obj :=
  o.filter (fun p => p.1 ≠ k)

/-- JS assignment `o[k] = v` (overwrite in place, or append when absent). -/
def jsSet (k : String) (v : Value) (o : Obj) : Obj :=
  if o.any (fun p => p.1 = k) then
    o.map (fun p => if p.1 = k then (k, v) else p)
  else o ++ [(k, v)]

/-- JS truthiness of a (possibly absent) property value: `undefined`, the
empty string, `NaN` and `0` are falsy. -/
def truthy : Option Value → Bool
  | none => false
  | some (Value.str s) => s ≠ ""
  | some (Value.num none) => false
  | some (Value.num (some i)) => i ≠ 0

/-- JS `a || b` for a possibly-undefined string `a`: `b` when `a` is
`undefined` or empty. -/
def jsOr (a : Option String) (b : String) : String :=
  match a with
  | some s => if s = "" then b else s
  | none => b

/-- JS `String.prototype.trim()`: strip whitespace from both ends
(structurally recursive so that it evaluates on concrete drafts). -/
def jsTrim (s : String) : String :=
  ⟨((s.data.dropWhile Char.isWhitespace).reverse.dropWhile Char.isWhitespace).reverse⟩

/-- JS `parseInt(s, 10)`: skip leading whitespace, read an optional sign,
then the maximal run of decimal digits; `none` (`NaN`) when no digit
follows. -/
def parseIntJs (s : String) : Option Int :=
  let chars := s.data.dropWhile Char.isWhitespace
  let signAndRest : Int × List Char :=
    match chars with
    | '-' :: cs => (-1, cs)
    | '+' :: cs => (1, cs)
    | cs => (1, cs)
  let digits := signAndRest.2.takeWhile Char.isDigit
  if digits = [] then none
  else some (signAndRest.1 * Int.ofNat (digits.foldl (fun a c => a * 10 + (c.toNat - 48)) 0))

/-- `FormState` from App.tsx: every field is the raw string held by its
input control (`category` is a string at runtime; the select only offers
`accessories` and `gifts`). -/
structure FormState where
  title : String
  description : String
  price : String
  originalPrice : String
  offerPrice : String
  category : String
  subcategory : String
  badge : String
  imageUrl : String
  availableQuantity : String
deriving DecidableEq, Repr

/-- `initialForm` from App.tsx. -/
def initialForm : FormState :=
  { title := ""
    description := ""
    price := ""
    originalPrice := ""
    offerPrice := ""
    category := "accessories"
    subcategory := ""
    badge := ""
    imageUrl := ""
    availableQuantity := "" }

/-- `ApiProduct` from api.ts: optional fields are `Option`s. -/
structure ApiProduct where
  id : String
  title : String
  description : Option String := none
  price : Option String := none
  originalPrice : Option String := none
  offerPrice : Option String := none
  category : Option String := none
  subcategory : Option String := none
  imageUrl : Option String := none
  image : Option String := none
  badge : Option String := none
  availableQuantity : Option Int := none
deriving DecidableEq, Repr

/-- The selected file of the file input (only its identity matters; its
bytes are consumed by the oracled upload call). -/
structure FileRef where
  name : String
deriving DecidableEq, Repr

/-- The two category lists held in the `products` state. -/
structure Snapshot where
  accessories : List ApiProduct
  gifts : List ApiProduct
deriving DecidableEq, Repr

/-- The component state of `App` that the claims are about. -/
structure AppState where
  form : FormState
  imageFile : Option FileRef
  editingProduct : Option ApiProduct
  products : Snapshot
  error : Option String
deriving DecidableEq, Repr

/-- One outbound transport request, as issued by api.ts. -/
inductive Call where
  | upload
  | create (payload : Obj)
  | update (id : String) (category : String) (payload : Obj)
  | deleteReq (id : String) (category : Option String)
  | loadReq
deriving DecidableEq, Repr

/-- Result of the oracled `uploadImage` round trip. -/
inductive UploadResult where
  | ok (url : String)
  | err (msg : String)
deriving DecidableEq, Repr

/-- Result of an oracled create/update/delete round trip (`msg` is the
thrown error's message). -/
inductive MutResult where
  | ok
  | err (msg : String)
deriving DecidableEq, Repr

/-- Result of the oracled `fetchAllProducts` round trip. -/
inductive LoadResult where
  | ok (snap : Snapshot)
  | err
deriving DecidableEq, Repr

/-- `load` from App.tsx: clear the error, then replace the whole snapshot
with the response, or record the load failure message. -/
def runLoad (st : AppState) (ld : LoadResult) : AppState :=
  let st := { st with error := none }
  match ld with
  | LoadResult.ok snap => { st with products := snap }
  | LoadResult.err => { st with error := some "Failed to load products." }

/-- The spread `{ ...form, imageUrl }`: the ten form fields in declaration
order, with `imageUrl` overridden. -/
def baseObj (form : FormState) (imageUrl : String) : Obj :=
  [("title", Value.str form.title),
   ("description", Value.str form.description),
   ("price", Value.str form.price),
   ("originalPrice", Value.str form.originalPrice),
   ("offerPrice", Value.str form.offerPrice),
   ("category", Value.str form.category),
   ("subcategory", Value.str form.subcategory),
   ("badge", Value.str form.badge),
   ("imageUrl", Value.str imageUrl),
   ("availableQuantity", Value.str form.availableQuantity)]

/-- The payload construction of `handleSubmit`: spread the form, keep
`availableQuantity` (parsed) only for a non-empty quantity on
`accessories`, delete the four empty optional strings, and back-fill the
legacy `price` from `originalPrice`. -/
def buildPayload (form : FormState) (imageUrl : String) : Obj :=
  let pd := baseObj form imageUrl
  let pd :=
    if form.category = "accessories" ∧ form.availableQuantity ≠ "" then
      jsSet "availableQuantity" (Value.num (parseIntJs form.availableQuantity)) pd
    else jsDelete "availableQuantity" pd
  let pd := if truthy (jsGet "originalPrice" pd) then pd else jsDelete "originalPrice" pd
  let pd := if truthy (jsGet "offerPrice" pd) then pd else jsDelete "offerPrice" pd
  let pd := if truthy (jsGet "subcategory" pd) then pd else jsDelete "subcategory" pd
  let pd := if truthy (jsGet "badge" pd) then pd else jsDelete "badge" pd
  let pd :=
    if ¬ truthy (jsGet "price" pd) ∧ truthy (jsGet "originalPrice" pd) then
      jsSet "price" ((jsGet "originalPrice" pd).getD (Value.str "")) pd
    else pd
  pd

/-- `handleCancelEdit` (also the post-success reset inside `handleSubmit`):
clear the edit target, reset the form, drop the selected file. -/
def cancelDraft (st : AppState) : AppState :=
  { st with form := initialForm, editingProduct := none, imageFile := none }

/-- `product.imageUrl || product.image || ''`. -/
def existingImage (p : ApiProduct) : String :=
  jsOr p.imageUrl (jsOr p.image "")

/-- Tail of `handleSubmit` after the create/update request: on failure set
the error from the thrown message, on success reset the draft and reload. -/
def finishMutation (st : AppState) (calls : List Call) (mutCall : Call)
    (mres : MutResult) (ld : LoadResult) : AppState × List Call :=
  match mres with
  | MutResult.err msg =>
      ({ st with error := some (if msg = "" then "Failed to add product." else msg) },
       calls ++ [mutCall])
  | MutResult.ok =>
      let st := cancelDraft st
      (runLoad st ld, calls ++ [mutCall, Call.loadReq])

/-- Tail of `handleSubmit` once the image URL is in hand: the create-mode
image check, the edit-mode retention of the existing image, the payload
build, and the mode dispatch to update or create. -/
def submitWithImage (st : AppState) (imageUrl : String) (hasFile : Bool)
    (calls : List Call) (mres : MutResult) (ld : LoadResult) : AppState × List Call :=
  if imageUrl = "" ∧ st.editingProduct = none then
    ({ st with error := some "Please provide an image (upload file or enter URL)" }, calls)
  else
    let finalUrl :=
      match st.editingProduct with
      | some p => if imageUrl = "" ∧ hasFile = false then existingImage p else imageUrl
      | none => imageUrl
    let pd := buildPayload st.form finalUrl
    match st.editingProduct with
    | some p => finishMutation st calls (Call.update p.id st.form.category pd) mres ld
    | none => finishMutation st calls (Call.create pd) mres ld

/-- `handleSubmit` from App.tsx, with the three possible round trips
oracled by `up`, `mut`, `ld`; returns the new state and the outbound call
trace in order. -/
def handleSubmit (st : AppState) (up : UploadResult) (mres : MutResult)
    (ld : LoadResult) : AppState × List Call :=
  let st := { st with error := none }
  if jsTrim st.form.title = "" then
    ({ st with error := some "Title required" }, [])
  else if st.form.category = "" then
    ({ st with error := some "Category required" }, [])
  else
    match st.imageFile with
    | some _ =>
        (match up with
         | UploadResult.err m =>
             ({ st with error := some ("Image upload failed: " ++ m) }, [Call.upload])
         | UploadResult.ok url => submitWithImage st url true [Call.upload] mres ld)
    | none => submitWithImage st st.form.imageUrl false [] mres ld

/-- `handleEdit` from App.tsx: record the edit target and prefill the form
from the product (`||`-defaulting each optional field). -/
def handleEdit (st : AppState) (p : ApiProduct) : AppState :=
  { st with
    editingProduct := some p
    form :=
      { title := jsOr (some p.title) ""
        description := jsOr p.description ""
        price := jsOr p.price ""
        originalPrice := jsOr p.originalPrice ""
        offerPrice := jsOr p.offerPrice ""
        category := jsOr p.category "accessories"
        subcategory := jsOr p.subcategory ""
        badge := jsOr p.badge ""
        imageUrl := jsOr p.imageUrl (jsOr p.image "")
        availableQuantity :=
          match p.availableQuantity with
          | some n => toString n
          | none => "" }
    imageFile := none }

/-- `handleDelete` from App.tsx: issue the delete; on success cancel the
edit when the deleted id is the edit target, then reload; on failure set
the delete error. -/
def handleDelete (st : AppState) (id : String) (category : Option String)
    (del : MutResult) (ld : LoadResult) : AppState × List Call :=
  let st := { st with error := none }
  match del with
  | MutResult.err _ =>
      ({ st with error := some "Failed to delete product." }, [Call.deleteReq id category])
  | MutResult.ok =>
      let st :=
        match st.editingProduct with
        | some p => if p.id = id then cancelDraft st else st
        | none => st
      (runLoad st ld, [Call.deleteReq id category, Call.loadReq])

/-- The category select's onChange: set the category, then clear the
subcategory. -/
def onCategoryChange (st : AppState) (v : String) : AppState :=
  let st := { st with form := { st.form with category := v } }
  { st with form := { st.form with subcategory := "" } }

/-- The file input's onChange: when a file was picked, keep it and blank
the manual URL field. -/
def onFileSelect (st : AppState) (f : Option FileRef) : AppState :=
  match f with
  | some file => { st with imageFile := some file, form := { st.form with imageUrl := "" } }
  | none => st

/-- The manual image-URL input's onChange: store the text; a non-empty
text drops the selected file. -/
def onImageUrlChange (st : AppState) (v : String) : AppState :=
  let st := { st with form := { st.form with imageUrl := v } }
  if v ≠ "" then { st with imageFile := none } else st

/-- The create/update requests of a trace. -/
def isMutation : Call → Bool
  | Call.create _ => true
  | Call.update _ _ _ => true
  | _ => false

/-- Whether a call is the full catalog reload. -/
def isLoad : Call → Bool
  | Call.loadReq => true
  | _ => false

/-- The create/update calls a trace contains, in order. -/
def mutCallsOf (cs : List Call) : List Call := cs.filter isMutation

/-- How many reload calls a trace contains. -/
def loadCount (cs : List Call) : Nat := cs.countP isLoad

/-- The payload of the first create/update call of a trace, when any. -/
def mutPayload? (cs : List Call) : Option Obj :=
  match mutCallsOf cs with
  | Call.create pd :: _ => some pd
  | Call.update _ _ pd :: _ => some pd
  | _ => none

/-- The routing category of a call, when it carries one. -/
def callCategory : Call → Option String
  | Call.update _ c _ => some c
  | Call.deleteReq _ (some c) => some c
  | _ => none

/-- The routing identifier of a call, when it carries one. -/
def callId : Call → Option String
  | Call.update i _ _ => some i
  | Call.deleteReq i _ => some i
  | _ => none

/-- The URL `handleSubmit` has in hand after the upload step: the upload
response when a file is selected (`none` on upload failure), the manual
field otherwise. -/
def uploadedUrl (st : AppState) (up : UploadResult) : Option String :=
  match st.imageFile with
  | some _ =>
      (match up with
       | UploadResult.ok url => some url
       | UploadResult.err _ => none)
  | none => some st.form.imageUrl

/-- Whether the submit reaches the mutation: the upload (when any)
succeeded and the create-mode missing-image check passes. -/
def imageResolvable (st : AppState) (up : UploadResult) : Bool :=
  match uploadedUrl st up with
  | some url => decide (¬ (url = "" ∧ st.editingProduct = none))
  | none => false

/-- An empty catalog snapshot, for concrete runs. -/
def emptySnap : Snapshot := { accessories := [], gifts := [] }

/-- A concrete create draft: the Ring scenario of the spec (legacy price
empty, originalPrice 500, pasted image URL, everything else blank). -/
def cForm : FormState :=
  { title := "Ring"
    description := ""
    price := ""
    originalPrice := "500"
    offerPrice := ""
    category := "accessories"
    subcategory := ""
    badge := ""
    imageUrl := "http://img/ring.png"
    availableQuantity := "" }

/-- The app state holding the Ring draft, not editing, no file selected. -/
def cState : AppState :=
  { form := cForm
    imageFile := none
    editingProduct := none
    products := emptySnap
    error := none }

/-- The call trace of submitting the Ring draft successfully. -/
def ringTrace : List Call :=
  (handleSubmit cState (UploadResult.ok "x") MutResult.ok (LoadResult.ok emptySnap)).2

/-- A concrete product under edit whose stored category is accessories. -/
def eProd : ApiProduct :=
  { id := "p1", title := "Old", category := some "accessories",
    imageUrl := some "http://img/old.png" }

/-- An edit session on `eProd` in which the operator switched the draft
category to gifts. -/
def eState : AppState :=
  { form :=
      { cForm with
          title := "New title"
          category := "gifts"
          imageUrl := "http://img/new.png" }
    imageFile := none
    editingProduct := some eProd
    products := emptySnap
    error := none }

/-- A gifts draft that still holds a quantity typed while the category was
accessories. -/
def gForm : FormState := { cForm with category := "gifts", availableQuantity := "7" }

/-- A stored product whose only image reference is the legacy field. -/
def legacyProd : ApiProduct :=
  { id := "p2", title := "Legacy", category := some "gifts",
    image := some "http://img/legacy.png" }

end AdminApp

namespace AdminApp

/-! ### Association-list lemmas -/

theorem jsGet_jsDelete (k k' : String) (o : Obj) :
    jsGet k (jsDelete k' o) = if k = k' then none else jsGet k o := by
  induction o with
  | nil => simp [jsGet, jsDelete]
  | cons p t ih =>
      obtain ⟨a, v⟩ := p
      by_cases h1 : a = k' <;> by_cases h2 : a = k <;>
        simp_all [jsGet, jsDelete, List.filter, List.find?]

theorem jsGet_map_replace (k : String) (v : Value) (o : Obj) :
    jsGet k (o.map (fun p => if p.1 = k then (k, v) else p)) =
      (jsGet k o).map (fun _ => v) := by
  induction o with
  | nil => rfl
  | cons p t ih =>
      obtain ⟨a, w⟩ := p
      by_cases h : a = k <;> simp_all [jsGet, List.find?]

theorem jsGet_map_replace_ne (k k' : String) (v : Value) (o : Obj) (hk : k ≠ k') :
    jsGet k (o.map (fun p => if p.1 = k' then (k', v) else p)) = jsGet k o := by
  induction o with
  | nil => rfl
  | cons p t ih =>
      obtain ⟨a, w⟩ := p
      by_cases h : a = k' <;> by_cases h2 : a = k <;>
        simp_all [jsGet, List.find?, Ne.symm hk]

theorem jsGet_of_not_mem (k : String) (o : Obj) (h : ∀ v, (k, v) ∉ o) :
    jsGet k o = none := by
  induction o with
  | nil => rfl
  | cons p t ih =>
      obtain ⟨a, w⟩ := p
      by_cases h2 : a = k
      · subst h2
        exact absurd (List.mem_cons_self _ _) (h w)
      · have hd : decide (a = k) = false := by simpa using h2
        simp only [jsGet, List.find?, hd]
        exact ih fun v hv => h v (List.mem_cons_of_mem _ hv)

theorem jsGet_isSome_of_mem (k : String) (p : String × Value) (o : Obj)
    (hp : p ∈ o) (hk : p.1 = k) : (jsGet k o).isSome := by
  induction o with
  | nil => simp at hp
  | cons q t ih =>
      obtain ⟨a, w⟩ := q
      by_cases h : a = k
      · have hd : decide (a = k) = true := by simpa using h
        simp [jsGet, List.find?, hd]
      · rcases List.mem_cons.mp hp with rfl | hmem
        · exact absurd hk h
        · have hd : decide (a = k) = false := by simpa using h
          simpa [jsGet, List.find?, hd] using ih hmem

theorem jsGet_append (k : String) (o o' : Obj) :
    jsGet k (o ++ o') = ((jsGet k o).orElse fun _ => jsGet k o') := by
  induction o with
  | nil => simp [jsGet]
  | cons p t ih =>
      obtain ⟨a, w⟩ := p
      by_cases h2 : a = k
      · have hd : decide (a = k) = true := by simpa using h2
        simp [jsGet, List.find?, hd, Option.orElse]
      · have hd : decide (a = k) = false := by simpa using h2
        simp only [jsGet, List.cons_append, List.find?, hd]
        exact ih

theorem jsGet_jsSet_self (k : String) (v : Value) (o : Obj) :
    jsGet k (jsSet k v o) = some v := by
  by_cases h : (o.any fun p => decide (p.1 = k)) = true
  · obtain ⟨p, hp, hk⟩ : ∃ p ∈ o, p.1 = k := by simpa using h
    have hs := jsGet_isSome_of_mem k p o hp hk
    simp only [jsSet]
    rw [if_pos h, jsGet_map_replace]
    rcases hv : jsGet k o with _ | w
    · rw [hv] at hs; simp at hs
    · simp
  · have hnm : ∀ v, (k, v) ∉ o := by
      intro v hv
      exact h (List.any_of_mem hv (decide_eq_true rfl))
    simp only [jsSet]
    rw [if_neg h, jsGet_append, jsGet_of_not_mem k o hnm]
    simp [jsGet, List.find?, Option.orElse]

theorem jsGet_jsSet_ne (k k' : String) (v : Value) (o : Obj) (hk : k ≠ k') :
    jsGet k (jsSet k' v o) = jsGet k o := by
  by_cases h : (o.any fun p => decide (p.1 = k')) = true
  · simp only [jsSet]
    rw [if_pos h, jsGet_map_replace_ne k k' v o hk]
  · simp only [jsSet]
    rw [if_neg h, jsGet_append]
    have h1 : jsGet k [(k', v)] = none := by
      have hd : decide (k' = k) = false := by simpa using Ne.symm hk
      simp [jsGet, List.find?, hd]
    rw [h1]
    rcases jsGet k o with _ | w <;> rfl

theorem jsGet_ite (k : String) (c : Prop) [Decidable c] (A B : Obj) :
    jsGet k (if c then A else B) = if c then jsGet k A else jsGet k B :=
  apply_ite (jsGet k) c A B

theorem truthy_ite (c : Prop) [Decidable c] (A B : Option Value) :
    truthy (if c then A else B) = if c then truthy A else truthy B :=
  apply_ite truthy c A B

theorem truthy_str (s : String) : truthy (some (Value.str s)) = decide (¬ s = "") := by
  simp [truthy]

theorem truthy_none : truthy none = false := rfl

/-! ### The spread object, key by key -/

theorem jsGet_base_title (f : FormState) (u : String) :
    jsGet "title" (baseObj f u) = some (Value.str f.title) := rfl

theorem jsGet_base_description (f : FormState) (u : String) :
    jsGet "description" (baseObj f u) = some (Value.str f.description) := rfl

theorem jsGet_base_price (f : FormState) (u : String) :
    jsGet "price" (baseObj f u) = some (Value.str f.price) := rfl

theorem jsGet_base_originalPrice (f : FormState) (u : String) :
    jsGet "originalPrice" (baseObj f u) = some (Value.str f.originalPrice) := rfl

theorem jsGet_base_offerPrice (f : FormState) (u : String) :
    jsGet "offerPrice" (baseObj f u) = some (Value.str f.offerPrice) := rfl

theorem jsGet_base_category (f : FormState) (u : String) :
    jsGet "category" (baseObj f u) = some (Value.str f.category) := rfl

theorem jsGet_base_subcategory (f : FormState) (u : String) :
    jsGet "subcategory" (baseObj f u) = some (Value.str f.subcategory) := rfl

theorem jsGet_base_badge (f : FormState) (u : String) :
    jsGet "badge" (baseObj f u) = some (Value.str f.badge) := rfl

theorem jsGet_base_imageUrl (f : FormState) (u : String) :
    jsGet "imageUrl" (baseObj f u) = some (Value.str u) := rfl

theorem jsGet_base_availableQuantity (f : FormState) (u : String) :
    jsGet "availableQuantity" (baseObj f u) = some (Value.str f.availableQuantity) := rfl

theorem jsGet_base_image (f : FormState) (u : String) :
    jsGet "image" (baseObj f u) = none := rfl

/-! ### The outbound payload, key by key -/

theorem bp_title (f : FormState) (u : String) :
    jsGet "title" (buildPayload f u) = some (Value.str f.title) := by
  simp [buildPayload, jsGet_ite, truthy_ite, jsGet_jsDelete, jsGet_jsSet_self,
    jsGet_jsSet_ne, jsGet_base_title, jsGet_base_originalPrice, jsGet_base_price,
    jsGet_base_offerPrice, jsGet_base_subcategory, jsGet_base_badge, truthy_str, truthy_none]

theorem bp_description (f : FormState) (u : String) :
    jsGet "description" (buildPayload f u) = some (Value.str f.description) := by
  simp [buildPayload, jsGet_ite, truthy_ite, jsGet_jsDelete, jsGet_jsSet_self,
    jsGet_jsSet_ne, jsGet_base_description, jsGet_base_originalPrice, jsGet_base_price,
    jsGet_base_offerPrice, jsGet_base_subcategory, jsGet_base_badge, truthy_str, truthy_none]

theorem bp_category (f : FormState) (u : String) :
    jsGet "category" (buildPayload f u) = some (Value.str f.category) := by
  simp [buildPayload, jsGet_ite, truthy_ite, jsGet_jsDelete, jsGet_jsSet_self,
    jsGet_jsSet_ne, jsGet_base_category, jsGet_base_originalPrice, jsGet_base_price,
    jsGet_base_offerPrice, jsGet_base_subcategory, jsGet_base_badge, truthy_str, truthy_none]

theorem bp_image (f : FormState) (u : String) :
    jsGet "image" (buildPayload f u) = none := by
  simp [buildPayload, jsGet_ite, truthy_ite, jsGet_jsDelete, jsGet_jsSet_self,
    jsGet_jsSet_ne, jsGet_base_image, jsGet_base_originalPrice, jsGet_base_price,
    jsGet_base_offerPrice, jsGet_base_subcategory, jsGet_base_badge, truthy_str, truthy_none]

theorem bp_imageUrl (f : FormState) (u : String) :
    jsGet "imageUrl" (buildPayload f u) = some (Value.str u) := by
  simp [buildPayload, jsGet_ite, truthy_ite, jsGet_jsDelete, jsGet_jsSet_self,
    jsGet_jsSet_ne, jsGet_base_imageUrl, jsGet_base_originalPrice, jsGet_base_price,
    jsGet_base_offerPrice, jsGet_base_subcategory, jsGet_base_badge, truthy_str, truthy_none]

theorem bp_originalPrice (f : FormState) (u : String) :
    jsGet "originalPrice" (buildPayload f u) =
      if f.originalPrice = "" then none else some (Value.str f.originalPrice) := by
  by_cases h : f.originalPrice = "" <;>
    simp [buildPayload, jsGet_ite, truthy_ite, jsGet_jsDelete, jsGet_jsSet_self,
      jsGet_jsSet_ne, jsGet_base_imageUrl, jsGet_base_originalPrice, jsGet_base_price,
      jsGet_base_offerPrice, jsGet_base_subcategory, jsGet_base_badge, truthy_str,
      truthy_none, h]

theorem bp_offerPrice (f : FormState) (u : String) :
    jsGet "offerPrice" (buildPayload f u) =
      if f.offerPrice = "" then none else some (Value.str f.offerPrice) := by
  by_cases h : f.offerPrice = "" <;>
    simp [buildPayload, jsGet_ite, truthy_ite, jsGet_jsDelete, jsGet_jsSet_self,
      jsGet_jsSet_ne, jsGet_base_imageUrl, jsGet_base_originalPrice, jsGet_base_price,
      jsGet_base_offerPrice, jsGet_base_subcategory, jsGet_base_badge, truthy_str,
      truthy_none, h]

theorem bp_subcategory (f : FormState) (u : String) :
    jsGet "subcategory" (buildPayload f u) =
      if f.subcategory = "" then none else some (Value.str f.subcategory) := by
  by_cases h : f.subcategory = "" <;>
    simp [buildPayload, jsGet_ite, truthy_ite, jsGet_jsDelete, jsGet_jsSet_self,
      jsGet_jsSet_ne, jsGet_base_imageUrl, jsGet_base_originalPrice, jsGet_base_price,
      jsGet_base_offerPrice, jsGet_base_subcategory, jsGet_base_badge, truthy_str,
      truthy_none, h]

theorem bp_badge (f : FormState) (u : String) :
    jsGet "badge" (buildPayload f u) =
      if f.badge = "" then none else some (Value.str f.badge) := by
  by_cases h : f.badge = "" <;>
    simp [buildPayload, jsGet_ite, truthy_ite, jsGet_jsDelete, jsGet_jsSet_self,
      jsGet_jsSet_ne, jsGet_base_imageUrl, jsGet_base_originalPrice, jsGet_base_price,
      jsGet_base_offerPrice, jsGet_base_subcategory, jsGet_base_badge, truthy_str,
      truthy_none, h]

theorem bp_availableQuantity (f : FormState) (u : String) :
    jsGet "availableQuantity" (buildPayload f u) =
      if f.category = "accessories" ∧ f.availableQuantity ≠ "" then
        some (Value.num (parseIntJs f.availableQuantity))
      else none := by
  by_cases h : f.category = "accessories" ∧ f.availableQuantity ≠ "" <;>
    simp [buildPayload, jsGet_ite, truthy_ite, jsGet_jsDelete, jsGet_jsSet_self,
      jsGet_jsSet_ne, jsGet_base_imageUrl, jsGet_base_originalPrice, jsGet_base_price,
      jsGet_base_offerPrice, jsGet_base_subcategory, jsGet_base_badge,
      jsGet_base_availableQuantity, truthy_str, truthy_none, h]

theorem bp_price (f : FormState) (u : String) :
    jsGet "price" (buildPayload f u) =
      some (Value.str (if f.price = "" ∧ f.originalPrice ≠ "" then f.originalPrice
        else f.price)) := by
  by_cases hp : f.price = "" <;> by_cases ho : f.originalPrice = "" <;>
    simp [buildPayload, jsGet_ite, truthy_ite, jsGet_jsDelete, jsGet_jsSet_self,
      jsGet_jsSet_ne, jsGet_base_imageUrl, jsGet_base_originalPrice, jsGet_base_price,
      jsGet_base_offerPrice, jsGet_base_subcategory, jsGet_base_badge, truthy_str,
      truthy_none, hp, ho]

end AdminApp

namespace AdminApp

/-! ### Handler reduction lemmas -/

theorem fm_trace (st : AppState) (calls : List Call) (c : Call) (mres : MutResult)
    (ld : LoadResult) :
    (finishMutation st calls c mres ld).2 =
      calls ++ (if mres = MutResult.ok then [c, Call.loadReq] else [c]) := by
  cases mres <;> simp [finishMutation]

theorem fm_state_ok (st : AppState) (calls : List Call) (c : Call) (ld : LoadResult) :
    (finishMutation st calls c MutResult.ok ld).1 = runLoad (cancelDraft st) ld := rfl

theorem fm_state_err (st : AppState) (calls : List Call) (c : Call) (m : String)
    (ld : LoadResult) :
    (finishMutation st calls c (MutResult.err m) ld).1 =
      { st with error := some (if m = "" then "Failed to add product." else m) } := rfl

theorem runLoad_form (st : AppState) (ld : LoadResult) :
    (runLoad st ld).form = st.form := by
  cases ld <;> rfl

theorem runLoad_editingProduct (st : AppState) (ld : LoadResult) :
    (runLoad st ld).editingProduct = st.editingProduct := by
  cases ld <;> rfl

theorem runLoad_imageFile (st : AppState) (ld : LoadResult) :
    (runLoad st ld).imageFile = st.imageFile := by
  cases ld <;> rfl

theorem cancelDraft_form (st : AppState) : (cancelDraft st).form = initialForm := rfl

theorem submit_title_missing (st : AppState) (up : UploadResult) (mres : MutResult)
    (ld : LoadResult) (ht : jsTrim st.form.title = "") :
    handleSubmit st up mres ld = ({ st with error := some "Title required" }, []) := by
  simp [handleSubmit, ht]

theorem submit_category_missing (st : AppState) (up : UploadResult) (mres : MutResult)
    (ld : LoadResult) (ht : jsTrim st.form.title ≠ "") (hc : st.form.category = "") :
    handleSubmit st up mres ld = ({ st with error := some "Category required" }, []) := by
  simp [handleSubmit, ht, hc]

theorem submit_no_image_create (st : AppState) (up : UploadResult) (mres : MutResult)
    (ld : LoadResult) (ht : jsTrim st.form.title ≠ "") (hc : st.form.category ≠ "")
    (hf : st.imageFile = none) (he : st.editingProduct = none)
    (hu : st.form.imageUrl = "") :
    handleSubmit st up mres ld =
      ({ st with error := some "Please provide an image (upload file or enter URL)" }, []) := by
  simp [handleSubmit, submitWithImage, ht, hc, hf, he, hu]

theorem submit_upload_failure (st : AppState) (mres : MutResult) (ld : LoadResult)
    (fl : FileRef) (m : String) (ht : jsTrim st.form.title ≠ "")
    (hc : st.form.category ≠ "") (hf : st.imageFile = some fl) :
    handleSubmit st (UploadResult.err m) mres ld =
      ({ st with error := some ("Image upload failed: " ++ m) }, [Call.upload]) := by
  simp [handleSubmit, ht, hc, hf]

theorem submit_create_nofile (st : AppState) (up : UploadResult) (mres : MutResult)
    (ld : LoadResult) (ht : jsTrim st.form.title ≠ "") (hc : st.form.category ≠ "")
    (hf : st.imageFile = none) (he : st.editingProduct = none)
    (hu : st.form.imageUrl ≠ "") :
    handleSubmit st up mres ld =
      finishMutation { st with error := none } []
        (Call.create (buildPayload st.form st.form.imageUrl)) mres ld := by
  simp [handleSubmit, submitWithImage, ht, hc, hf, he, hu]

theorem submit_update_nofile (st : AppState) (up : UploadResult) (mres : MutResult)
    (ld : LoadResult) (p : ApiProduct) (ht : jsTrim st.form.title ≠ "")
    (hc : st.form.category ≠ "") (hf : st.imageFile = none)
    (he : st.editingProduct = some p) :
    handleSubmit st up mres ld =
      finishMutation { st with error := none } []
        (Call.update p.id st.form.category
          (buildPayload st.form
            (if st.form.imageUrl = "" then existingImage p else st.form.imageUrl)))
        mres ld := by
  by_cases hu : st.form.imageUrl = "" <;>
    simp [handleSubmit, submitWithImage, ht, hc, hf, he, hu]

theorem submit_file_uploaded (st : AppState) (mres : MutResult) (ld : LoadResult)
    (fl : FileRef) (url : String) (ht : jsTrim st.form.title ≠ "")
    (hc : st.form.category ≠ "") (hf : st.imageFile = some fl)
    (h : ¬ (url = "" ∧ st.editingProduct = none)) :
    handleSubmit st (UploadResult.ok url) mres ld =
      finishMutation { st with error := none } [Call.upload]
        (match st.editingProduct with
         | some p => Call.update p.id st.form.category (buildPayload st.form url)
         | none => Call.create (buildPayload st.form url)) mres ld := by
  rcases he : st.editingProduct with _ | p
  · have hu : url ≠ "" := fun hu' => h ⟨hu', he⟩
    simp [handleSubmit, submitWithImage, ht, hc, hf, he, hu]
  · by_cases hu : url = "" <;>
      simp [handleSubmit, submitWithImage, ht, hc, hf, he, hu]

theorem delete_failure (st : AppState) (id : String) (category : Option String)
    (m : String) (ld : LoadResult) :
    handleDelete st id category (MutResult.err m) ld =
      ({ st with error := some "Failed to delete product." }, [Call.deleteReq id category]) := rfl

theorem delete_ok_editing (st : AppState) (id : String) (category : Option String)
    (ld : LoadResult) (p : ApiProduct) (he : st.editingProduct = some p)
    (hid : p.id = id) :
    handleDelete st id category MutResult.ok ld =
      (runLoad (cancelDraft { st with error := none }) ld,
       [Call.deleteReq id category, Call.loadReq]) := by
  simp [handleDelete, he, hid]

theorem delete_ok_not_editing (st : AppState) (id : String) (category : Option String)
    (ld : LoadResult) (h : ∀ p, st.editingProduct = some p → p.id ≠ id) :
    handleDelete st id category MutResult.ok ld =
      (runLoad { st with error := none } ld,
       [Call.deleteReq id category, Call.loadReq]) := by
  rcases he : st.editingProduct with _ | p
  · simp [handleDelete, he]
  · simp [handleDelete, he, h p he]

/-! ### Call-trace lemmas -/

theorem mutCallsOf_append (a b : List Call) :
    mutCallsOf (a ++ b) = mutCallsOf a ++ mutCallsOf b := by
  simp [mutCallsOf]

theorem mutPayload_fm_update (st : AppState) (calls : List Call) (i c : String)
    (pd : Obj) (mres : MutResult) (ld : LoadResult) (hcalls : mutCallsOf calls = []) :
    mutPayload? (finishMutation st calls (Call.update i c pd) mres ld).2 = some pd := by
  rw [fm_trace]
  have h2 : List.filter isMutation calls = [] := hcalls
  cases mres <;>
    simp [mutPayload?, mutCallsOf_append, h2, mutCallsOf, isMutation, List.filter]

theorem mutPayload_fm_create (st : AppState) (calls : List Call) (pd : Obj)
    (mres : MutResult) (ld : LoadResult) (hcalls : mutCallsOf calls = []) :
    mutPayload? (finishMutation st calls (Call.create pd) mres ld).2 = some pd := by
  rw [fm_trace]
  have h2 : List.filter isMutation calls = [] := hcalls
  cases mres <;>
    simp [mutPayload?, mutCallsOf_append, h2, mutCallsOf, isMutation, List.filter]

theorem mutCallsOf_upload : mutCallsOf [Call.upload] = [] := rfl

theorem submit_loadCount (st : AppState) (up : UploadResult) (mres : MutResult)
    (ld : LoadResult) :
    loadCount (handleSubmit st up mres ld).2 =
      if mutCallsOf (handleSubmit st up mres ld).2 ≠ [] ∧ mres = MutResult.ok then 1
      else 0 := by
  simp only [handleSubmit, submitWithImage, finishMutation, runLoad, cancelDraft]
  repeat' split
  all_goals simp_all [loadCount, mutCallsOf, isLoad, isMutation, List.countP,
    List.countP.go, List.filter]

theorem submit_products (st : AppState) (up : UploadResult) (mres : MutResult)
    (ld : LoadResult) :
    (handleSubmit st up mres ld).1.products = st.products ∨
      ∃ snap, ld = LoadResult.ok snap ∧ (handleSubmit st up mres ld).1.products = snap := by
  simp only [handleSubmit, submitWithImage, finishMutation, runLoad, cancelDraft]
  repeat' split
  all_goals simp_all

theorem delete_loadCount (st : AppState) (id : String) (category : Option String)
    (del : MutResult) (ld : LoadResult) :
    loadCount (handleDelete st id category del ld).2 =
      if del = MutResult.ok then 1 else 0 := by
  simp only [handleDelete, runLoad, cancelDraft]
  repeat' split
  all_goals simp_all [loadCount, isLoad, List.countP, List.countP.go]

theorem delete_products (st : AppState) (id : String) (category : Option String)
    (del : MutResult) (ld : LoadResult) :
    (handleDelete st id category del ld).1.products = st.products ∨
      ∃ snap, ld = LoadResult.ok snap ∧
        (handleDelete st id category del ld).1.products = snap := by
  simp only [handleDelete, runLoad, cancelDraft]
  repeat' split
  all_goals simp_all

theorem mutPayload_is_buildPayload (st : AppState) (up : UploadResult)
    (mres : MutResult) (ld : LoadResult) (pd : Obj)
    (h : mutPayload? (handleSubmit st up mres ld).2 = some pd) :
    ∃ u, pd = buildPayload st.form u := by
  simp only [handleSubmit, submitWithImage, finishMutation] at h
  repeat' split at h
  all_goals
    simp_all [mutPayload?, mutCallsOf, isMutation, List.filter]
  all_goals exact ⟨_, h.symm⟩

/-! ### UI change handlers -/

theorem onCategoryChange_form (st : AppState) (v : String) :
    (onCategoryChange st v).form.subcategory = "" ∧
      (onCategoryChange st v).form.category = v := by
  simp [onCategoryChange]

theorem onFileSelect_form (st : AppState) (fl : FileRef) :
    (onFileSelect st (some fl)).form.imageUrl = "" ∧
      (onFileSelect st (some fl)).imageFile = some fl := by
  simp [onFileSelect]

theorem onImageUrlChange_form (st : AppState) (v : String) (hv : v ≠ "") :
    (onImageUrlChange st v).imageFile = none ∧
      (onImageUrlChange st v).form.imageUrl = v := by
  simp [onImageUrlChange, hv]

end AdminApp

namespace AdminApp

/-! ### Further shared helper lemmas -/

theorem isMutation_create (pd : Obj) : isMutation (Call.create pd) = true := rfl

theorem isMutation_update (i c : String) (pd : Obj) :
    isMutation (Call.update i c pd) = true := rfl

theorem isLoad_not_mutation : isMutation Call.loadReq = false := rfl

theorem mutCallsOf_nil : mutCallsOf [] = [] := rfl

theorem fm_mutCalls (st : AppState) (calls : List Call) (c : Call) (mres : MutResult)
    (ld : LoadResult) (hcalls : mutCallsOf calls = []) (hc : isMutation c = true) :
    mutCallsOf (finishMutation st calls c mres ld).2 = [c] := by
  rw [fm_trace]
  have h2 : List.filter isMutation calls = [] := hcalls
  cases mres <;>
    simp [mutCallsOf, mutCallsOf_append, h2, List.filter, hc, isLoad_not_mutation]

theorem fm_reset (st : AppState) (calls : List Call) (c : Call) (ld : LoadResult) :
    (finishMutation st calls c MutResult.ok ld).1.form = initialForm ∧
    (finishMutation st calls c MutResult.ok ld).1.editingProduct = none ∧
    (finishMutation st calls c MutResult.ok ld).1.imageFile = none := by
  rw [fm_state_ok]
  simp [runLoad_form, runLoad_editingProduct, runLoad_imageFile, cancelDraft]

theorem jsOr_some_empty (s : String) : jsOr (some s) "" = s := by
  by_cases h : s = "" <;> simp [jsOr, h]

theorem jsOr_default_ne (a : Option String) (b : String) (hb : b ≠ "") :
    jsOr a b ≠ "" := by
  rcases a with _ | s
  · simpa [jsOr] using hb
  · by_cases h : s = "" <;> simp [jsOr, h, hb]

/-! ### The claims -/

/-- C1, counterexample: the claim says no key of the outbound payload is
ever bound to the empty string, but submitting the Ring draft (whose
description the operator left empty) sends `description` bound to `""` —
the cleanup block only deletes the four optional fields and the
quantity. -/
theorem C1_counterexample :
    (mutPayload? ringTrace).bind (jsGet "description") = some (Value.str "") := by decide

/-- C1 (amended): the empty-string pruning holds exactly for
`originalPrice`, `offerPrice`, `subcategory`, `badge` and
`availableQuantity` — none of these keys is ever bound to an empty string
in the outbound payload (they are dropped instead); `description` and the
legacy `price` can still be sent blank. -/
theorem C1_empty_optionals_dropped :
    ∀ (f : FormState) (u k : String),
      k = "originalPrice" ∨ k = "offerPrice" ∨ k = "subcategory" ∨ k = "badge" ∨
        k = "availableQuantity" →
      jsGet k (buildPayload f u) ≠ some (Value.str "") := by
  intro f u k hk
  rcases hk with rfl | rfl | rfl | rfl | rfl
  · rw [bp_originalPrice]; split <;> simp_all
  · rw [bp_offerPrice]; split <;> simp_all
  · rw [bp_subcategory]; split <;> simp_all
  · rw [bp_badge]; split <;> simp_all
  · rw [bp_availableQuantity]; split <;> simp

/-- C1 witness: the amended statement at the Ring draft and the
`originalPrice` key. -/
theorem C1_empty_optionals_dropped_witness :
    jsGet "originalPrice" (buildPayload cForm "u") ≠ some (Value.str "") :=
  C1_empty_optionals_dropped cForm "u" "originalPrice" (Or.inl rfl)

/-- C2: image precedence at submit time — (a) a selected file's uploaded
URL wins even over a typed URL, (b) otherwise a non-empty typed URL is
used verbatim, (c) otherwise an edit keeps the product's existing
reference (`imageUrl` falling back to legacy `image`), (d) otherwise a
create fails validation with no transport call; and the two inputs clear
each other: picking a file blanks the URL field, typing a non-empty URL
drops the file. -/
theorem C2_image_precedence :
    (∀ (st : AppState) (mres : MutResult) (ld : LoadResult) (fl : FileRef) (url : String),
        jsTrim st.form.title ≠ "" → st.form.category ≠ "" → st.imageFile = some fl →
        ¬ (url = "" ∧ st.editingProduct = none) →
        (mutPayload? (handleSubmit st (UploadResult.ok url) mres ld).2).bind
            (jsGet "imageUrl") = some (Value.str url)) ∧
    (∀ (st : AppState) (up : UploadResult) (mres : MutResult) (ld : LoadResult),
        jsTrim st.form.title ≠ "" → st.form.category ≠ "" → st.imageFile = none →
        st.form.imageUrl ≠ "" →
        (mutPayload? (handleSubmit st up mres ld).2).bind (jsGet "imageUrl") =
          some (Value.str st.form.imageUrl)) ∧
    (∀ (st : AppState) (up : UploadResult) (mres : MutResult) (ld : LoadResult)
        (p : ApiProduct),
        jsTrim st.form.title ≠ "" → st.form.category ≠ "" → st.imageFile = none →
        st.form.imageUrl = "" → st.editingProduct = some p →
        (mutPayload? (handleSubmit st up mres ld).2).bind (jsGet "imageUrl") =
          some (Value.str (existingImage p))) ∧
    (∀ (st : AppState) (up : UploadResult) (mres : MutResult) (ld : LoadResult),
        jsTrim st.form.title ≠ "" → st.form.category ≠ "" → st.imageFile = none →
        st.form.imageUrl = "" → st.editingProduct = none →
        handleSubmit st up mres ld =
          ({ st with error := some "Please provide an image (upload file or enter URL)" },
           [])) ∧
    (∀ (st : AppState) (fl : FileRef),
        (onFileSelect st (some fl)).form.imageUrl = "" ∧
          (onFileSelect st (some fl)).imageFile = some fl) ∧
    (∀ (st : AppState) (v : String), v ≠ "" →
        (onImageUrlChange st v).imageFile = none ∧
          (onImageUrlChange st v).form.imageUrl = v) := by
  refine ⟨?_, ?_, ?_, ?_, onFileSelect_form, onImageUrlChange_form⟩
  · intro st mres ld fl url ht hc hf h
    rw [submit_file_uploaded st mres ld fl url ht hc hf h]
    rcases he : st.editingProduct with _ | p
    · dsimp only
      rw [mutPayload_fm_create _ _ _ _ _ mutCallsOf_upload]
      simp [bp_imageUrl]
    · dsimp only
      rw [mutPayload_fm_update _ _ _ _ _ _ _ mutCallsOf_upload]
      simp [bp_imageUrl]
  · intro st up mres ld ht hc hf hu
    rcases he : st.editingProduct with _ | p
    · rw [submit_create_nofile st up mres ld ht hc hf he hu]
      rw [mutPayload_fm_create _ _ _ _ _ mutCallsOf_nil]
      simp [bp_imageUrl]
    · rw [submit_update_nofile st up mres ld p ht hc hf he]
      rw [if_neg hu]
      rw [mutPayload_fm_update _ _ _ _ _ _ _ mutCallsOf_nil]
      simp [bp_imageUrl]
  · intro st up mres ld p ht hc hf hu he
    rw [submit_update_nofile st up mres ld p ht hc hf he]
    rw [if_pos hu]
    rw [mutPayload_fm_update _ _ _ _ _ _ _ mutCallsOf_nil]
    simp [bp_imageUrl]
  · intro st up mres ld ht hc hf hu he
    exact submit_no_image_create st up mres ld ht hc hf he hu

/-- C2 witness: with both a selected file and a typed URL, the uploaded
URL ends up in the outbound payload. -/
theorem C2_image_precedence_witness :
    (mutPayload? (handleSubmit
          { cState with
              form := { cForm with imageUrl := "http://typed.example/x.png" }
              imageFile := some { name := "ring.png" } }
          (UploadResult.ok "http://up.example/y.png") MutResult.ok
          (LoadResult.ok emptySnap)).2).bind (jsGet "imageUrl") =
      some (Value.str "http://up.example/y.png") :=
  C2_image_precedence.1
    { cState with
        form := { cForm with imageUrl := "http://typed.example/x.png" }
        imageFile := some { name := "ring.png" } }
    MutResult.ok (LoadResult.ok emptySnap) { name := "ring.png" }
    "http://up.example/y.png" (by decide) (by decide) rfl (by decide)

/-- C3, counterexample: the claim scopes the update to the editing
product's category, but the code passes the draft's current category —
editing the accessories product `p1` after switching the draft to gifts
issues an update routed to `gifts`, not to the product's stored
`accessories`. -/
theorem C3_counterexample :
    (mutCallsOf (handleSubmit eState (UploadResult.ok "") MutResult.ok
        (LoadResult.ok emptySnap)).2).map callCategory = [some "gifts"] ∧
    (mutCallsOf (handleSubmit eState (UploadResult.ok "") MutResult.ok
        (LoadResult.ok emptySnap)).2).map callId = [some "p1"] ∧
    eProd.category = some "accessories" := by decide

/-- C3 (amended): a valid draft submits exactly one mutation call — an
update scoped to the editing product's identifier and the draft's current
category when editing, a create otherwise, never both — and a successful
mutation resets the draft, the edit target and the selected file. -/
theorem C3_single_mutation_mode_dispatch :
    ∀ (st : AppState) (up : UploadResult) (mres : MutResult) (ld : LoadResult),
      jsTrim st.form.title ≠ "" → st.form.category ≠ "" →
      imageResolvable st up = true →
      (mutCallsOf (handleSubmit st up mres ld).2).length = 1 ∧
      (match st.editingProduct with
       | some p => ∃ pd, mutCallsOf (handleSubmit st up mres ld).2 =
           [Call.update p.id st.form.category pd]
       | none => ∃ pd, mutCallsOf (handleSubmit st up mres ld).2 = [Call.create pd]) ∧
      (mres = MutResult.ok →
        (handleSubmit st up mres ld).1.form = initialForm ∧
        (handleSubmit st up mres ld).1.editingProduct = none ∧
        (handleSubmit st up mres ld).1.imageFile = none) := by
  intro st up mres ld ht hc himg
  rcases hf : st.imageFile with _ | fl
  · have himg0 : decide (¬ (st.form.imageUrl = "" ∧ st.editingProduct = none)) = true := by
      simpa only [imageResolvable, uploadedUrl, hf] using himg
    have himg' := of_decide_eq_true himg0
    rcases he : st.editingProduct with _ | p
    · have hu : st.form.imageUrl ≠ "" := fun h0 => himg' ⟨h0, he⟩
      rw [submit_create_nofile st up mres ld ht hc hf he hu, he]
      dsimp only
      refine ⟨?_, ?_, ?_⟩
      · rw [fm_mutCalls _ _ _ _ _ mutCallsOf_nil (isMutation_create _)]
        rfl
      · exact ⟨_, fm_mutCalls _ _ _ _ _ mutCallsOf_nil (isMutation_create _)⟩
      · intro hm; subst hm; exact fm_reset _ _ _ _
    · rw [submit_update_nofile st up mres ld p ht hc hf he, he]
      dsimp only
      refine ⟨?_, ?_, ?_⟩
      · rw [fm_mutCalls _ _ _ _ _ mutCallsOf_nil (isMutation_update _ _ _)]
        rfl
      · exact ⟨_, fm_mutCalls _ _ _ _ _ mutCallsOf_nil (isMutation_update _ _ _)⟩
      · intro hm; subst hm; exact fm_reset _ _ _ _
  · rcases up with url | m
    · have himg0 : decide (¬ (url = "" ∧ st.editingProduct = none)) = true := by
        simpa only [imageResolvable, uploadedUrl, hf] using himg
      have himg' := of_decide_eq_true himg0
      rw [submit_file_uploaded st mres ld fl url ht hc hf himg']
      rcases he : st.editingProduct with _ | p
      · dsimp only
        refine ⟨?_, ?_, ?_⟩
        · rw [fm_mutCalls _ _ _ _ _ mutCallsOf_upload (isMutation_create _)]
          rfl
        · exact ⟨_, fm_mutCalls _ _ _ _ _ mutCallsOf_upload (isMutation_create _)⟩
        · intro hm; subst hm; exact fm_reset _ _ _ _
      · dsimp only
        refine ⟨?_, ?_, ?_⟩
        · rw [fm_mutCalls _ _ _ _ _ mutCallsOf_upload (isMutation_update _ _ _)]
          rfl
        · exact ⟨_, fm_mutCalls _ _ _ _ _ mutCallsOf_upload (isMutation_update _ _ _)⟩
        · intro hm; subst hm; exact fm_reset _ _ _ _
    · exfalso
      simp [imageResolvable, uploadedUrl, hf] at himg

/-- C3 witness: the amended statement on the Ring create, giving exactly
one mutation call. -/
theorem C3_single_mutation_mode_dispatch_witness :
    (mutCallsOf (handleSubmit cState (UploadResult.ok "x") MutResult.ok
        (LoadResult.ok emptySnap)).2).length = 1 :=
  (C3_single_mutation_mode_dispatch cState (UploadResult.ok "x") MutResult.ok
    (LoadResult.ok emptySnap) (by decide) (by decide) (by decide)).1

/-- C4: the snapshot only changes by whole replacement with a reload
response — a submit or delete issues exactly one reload call when its
mutation succeeded and none when it failed or never happened, and the
resulting `products` state is either untouched or exactly the reload's
response (never a local patch). -/
theorem C4_snapshot_via_reload_only :
    (∀ (st : AppState) (up : UploadResult) (mres : MutResult) (ld : LoadResult),
        loadCount (handleSubmit st up mres ld).2 =
          if mutCallsOf (handleSubmit st up mres ld).2 ≠ [] ∧ mres = MutResult.ok then 1
          else 0) ∧
    (∀ (st : AppState) (up : UploadResult) (mres : MutResult) (ld : LoadResult),
        (handleSubmit st up mres ld).1.products = st.products ∨
          ∃ snap, ld = LoadResult.ok snap ∧
            (handleSubmit st up mres ld).1.products = snap) ∧
    (∀ (st : AppState) (id : String) (category : Option String) (del : MutResult)
        (ld : LoadResult),
        loadCount (handleDelete st id category del ld).2 =
          if del = MutResult.ok then 1 else 0) ∧
    (∀ (st : AppState) (id : String) (category : Option String) (del : MutResult)
        (ld : LoadResult),
        (handleDelete st id category del ld).1.products = st.products ∨
          ∃ snap, ld = LoadResult.ok snap ∧
            (handleDelete st id category del ld).1.products = snap) :=
  ⟨submit_loadCount, submit_products, delete_loadCount, delete_products⟩

/-- C5: an empty legacy price is back-filled with a non-empty
originalPrice, and the concrete Ring create sends a payload that omits
offerPrice, badge, subcategory and availableQuantity while carrying
price = "500". -/
theorem C5_price_backfill :
    (∀ (f : FormState) (u : String), f.price = "" → f.originalPrice ≠ "" →
        jsGet "price" (buildPayload f u) = some (Value.str f.originalPrice)) ∧
    ((mutPayload? ringTrace).bind (jsGet "price") = some (Value.str "500") ∧
      (mutPayload? ringTrace).bind (jsGet "offerPrice") = none ∧
      (mutPayload? ringTrace).bind (jsGet "badge") = none ∧
      (mutPayload? ringTrace).bind (jsGet "subcategory") = none ∧
      (mutPayload? ringTrace).bind (jsGet "availableQuantity") = none ∧
      mutPayload? ringTrace ≠ none) := by
  refine ⟨fun f u hp ho => ?_, by decide⟩
  rw [bp_price, if_pos ⟨hp, ho⟩]

/-- C5 witness: the back-fill on the Ring draft itself. -/
theorem C5_price_backfill_witness :
    jsGet "price" (buildPayload cForm "u") = some (Value.str "500") :=
  C5_price_backfill.1 cForm "u" rfl (by decide)

/-- C6: the outbound payload carries `availableQuantity` exactly when the
draft's category is accessories and the quantity field is non-empty, and
then as the parsed integer; a gifts draft never sends it; and every
outbound payload is the payload builder applied to the submitted draft. -/
theorem C6_availableQuantity_iff :
    (∀ (f : FormState) (u : String),
        jsGet "availableQuantity" (buildPayload f u) =
          if f.category = "accessories" ∧ f.availableQuantity ≠ "" then
            some (Value.num (parseIntJs f.availableQuantity))
          else none) ∧
    (∀ (f : FormState) (u : String), f.category = "gifts" →
        jsGet "availableQuantity" (buildPayload f u) = none) ∧
    (∀ (st : AppState) (up : UploadResult) (mres : MutResult) (ld : LoadResult)
        (pd : Obj), mutPayload? (handleSubmit st up mres ld).2 = some pd →
        ∃ u, pd = buildPayload st.form u) := by
  refine ⟨bp_availableQuantity, fun f u hg => ?_, mutPayload_is_buildPayload⟩
  rw [bp_availableQuantity, if_neg]
  rintro ⟨h1, _⟩
  rw [hg] at h1
  exact absurd h1 (by decide)

/-- C6 witness: a gifts draft with a leftover quantity of 7 still sends no
availableQuantity. -/
theorem C6_availableQuantity_iff_witness :
    jsGet "availableQuantity" (buildPayload gForm "u") = none :=
  C6_availableQuantity_iff.2.1 gForm "u" rfl

/-- C7: a blank (post-trim) title, an empty category, or a create with no
image source each abort the submit with the matching inline error and an
empty call trace; a failed upload aborts after exactly the upload call,
surfacing the wrapped "Image upload failed: ..." message, with no
create or update issued. -/
theorem C7_validation_and_upload_failures :
    (∀ (st : AppState) (up : UploadResult) (mres : MutResult) (ld : LoadResult),
        jsTrim st.form.title = "" →
        handleSubmit st up mres ld = ({ st with error := some "Title required" }, [])) ∧
    (∀ (st : AppState) (up : UploadResult) (mres : MutResult) (ld : LoadResult),
        jsTrim st.form.title ≠ "" → st.form.category = "" →
        handleSubmit st up mres ld = ({ st with error := some "Category required" }, [])) ∧
    (∀ (st : AppState) (up : UploadResult) (mres : MutResult) (ld : LoadResult),
        jsTrim st.form.title ≠ "" → st.form.category ≠ "" → st.imageFile = none →
        st.editingProduct = none → st.form.imageUrl = "" →
        handleSubmit st up mres ld =
          ({ st with error := some "Please provide an image (upload file or enter URL)" },
           [])) ∧
    (∀ (st : AppState) (mres : MutResult) (ld : LoadResult) (fl : FileRef) (m : String),
        jsTrim st.form.title ≠ "" → st.form.category ≠ "" → st.imageFile = some fl →
        handleSubmit st (UploadResult.err m) mres ld =
          ({ st with error := some ("Image upload failed: " ++ m) }, [Call.upload])) :=
  ⟨fun st up mres ld ht => submit_title_missing st up mres ld ht,
   fun st up mres ld ht hc => submit_category_missing st up mres ld ht hc,
   fun st up mres ld ht hc hf he hu => submit_no_image_create st up mres ld ht hc hf he hu,
   fun st mres ld fl m ht hc hf => submit_upload_failure st mres ld fl m ht hc hf⟩

/-- C7 witness: a whitespace-only title yields the title error and an
empty call trace. -/
theorem C7_validation_and_upload_failures_witness :
    handleSubmit { cState with form := { cForm with title := "  " } }
        (UploadResult.ok "x") MutResult.ok (LoadResult.ok emptySnap) =
      ({ { cState with form := { cForm with title := "  " } } with
          error := some "Title required" }, []) :=
  C7_validation_and_upload_failures.1
    { cState with form := { cForm with title := "  " } }
    (UploadResult.ok "x") MutResult.ok (LoadResult.ok emptySnap) (by decide)

/-- C8: changing the category control sets the new category and clears the
draft's subcategory, for every draft and every new value. -/
theorem C8_category_change_clears_subcategory :
    ∀ (st : AppState) (v : String),
      (onCategoryChange st v).form.subcategory = "" ∧
        (onCategoryChange st v).form.category = v :=
  onCategoryChange_form

/-- C9: successfully deleting the product currently open for editing
resets the draft to the empty form and clears the edit target and the
selected file; deleting any other product (or failing to delete) leaves
the draft, edit target and file untouched. -/
theorem C9_delete_resets_edit_target :
    (∀ (st : AppState) (id : String) (category : Option String) (ld : LoadResult)
        (p : ApiProduct), st.editingProduct = some p → p.id = id →
        (handleDelete st id category MutResult.ok ld).1.form = initialForm ∧
        (handleDelete st id category MutResult.ok ld).1.editingProduct = none ∧
        (handleDelete st id category MutResult.ok ld).1.imageFile = none) ∧
    (∀ (st : AppState) (id : String) (category : Option String) (del : MutResult)
        (ld : LoadResult), (∀ p, st.editingProduct = some p → p.id ≠ id) →
        (handleDelete st id category del ld).1.form = st.form ∧
        (handleDelete st id category del ld).1.editingProduct = st.editingProduct ∧
        (handleDelete st id category del ld).1.imageFile = st.imageFile) := by
  constructor
  · intro st id category ld p he hid
    rw [delete_ok_editing st id category ld p he hid]
    simp [runLoad_form, runLoad_editingProduct, runLoad_imageFile, cancelDraft]
  · intro st id category del ld h
    rcases del with _ | m
    · rw [delete_ok_not_editing st id category ld h]
      simp [runLoad_form, runLoad_editingProduct, runLoad_imageFile]
    · rw [delete_failure st id category m ld]
      exact ⟨rfl, rfl, rfl⟩

/-- C9 witness: deleting `p1` while editing `p1` resets the draft. -/
theorem C9_delete_resets_edit_target_witness :
    (handleDelete eState "p1" none MutResult.ok (LoadResult.ok emptySnap)).1.form =
        initialForm ∧
      (handleDelete eState "p1" none MutResult.ok (LoadResult.ok emptySnap)).1.editingProduct =
        none ∧
      (handleDelete eState "p1" none MutResult.ok (LoadResult.ok emptySnap)).1.imageFile =
        none :=
  C9_delete_resets_edit_target.1 eState "p1" none (LoadResult.ok emptySnap) eProd rfl rfl

/-- C10: no outbound payload ever carries the legacy `image` key, and
editing a product whose only reference lives in the legacy field (with no
new file or URL supplied) re-sends that reference under `imageUrl`,
silently migrating it. -/
theorem C10_no_legacy_image_key :
    (∀ (f : FormState) (u : String), jsGet "image" (buildPayload f u) = none) ∧
    (∀ (st : AppState) (p : ApiProduct) (up : UploadResult) (mres : MutResult)
        (ld : LoadResult) (v : String),
        jsTrim p.title ≠ "" → (p.imageUrl = none ∨ p.imageUrl = some "") →
        p.image = some v → v ≠ "" →
        (mutPayload? (handleSubmit (handleEdit st p) up mres ld).2).bind
            (jsGet "imageUrl") = some (Value.str v) ∧
        (mutPayload? (handleSubmit (handleEdit st p) up mres ld).2).bind
            (jsGet "image") = none ∧
        mutPayload? (handleSubmit (handleEdit st p) up mres ld).2 ≠ none) := by
  refine ⟨bp_image, ?_⟩
  intro st p up mres ld v ht himgU himg hv
  have hju : jsOr p.imageUrl (jsOr p.image "") = v := by
    rcases himgU with h0 | h0 <;> rw [h0, himg] <;> simp [jsOr, hv]
  have htitle : jsTrim (handleEdit st p).form.title ≠ "" := by
    show jsTrim (jsOr (some p.title) "") ≠ ""
    rw [jsOr_some_empty]
    exact ht
  have hcat : (handleEdit st p).form.category ≠ "" :=
    jsOr_default_ne p.category "accessories" (by decide)
  have hurl : (handleEdit st p).form.imageUrl = v := hju
  rw [submit_update_nofile (handleEdit st p) up mres ld p htitle hcat rfl rfl]
  rw [hurl, if_neg hv]
  rw [mutPayload_fm_update _ _ _ _ _ _ _ mutCallsOf_nil]
  refine ⟨by simp [bp_imageUrl], by simp [bp_image], by simp⟩

/-- C10 witness: editing the legacy-image product and submitting untouched
re-sends the legacy URL under `imageUrl`. -/
theorem C10_no_legacy_image_key_witness :
    (mutPayload? (handleSubmit (handleEdit cState legacyProd) (UploadResult.ok "x")
        MutResult.ok (LoadResult.ok emptySnap)).2).bind (jsGet "imageUrl") =
      some (Value.str "http://img/legacy.png") :=
  (C10_no_legacy_image_key.2 cState legacyProd (UploadResult.ok "x") MutResult.ok
    (LoadResult.ok emptySnap) "http://img/legacy.png" (by decide) (Or.inl rfl) rfl
    (by decide)).1

end AdminApp
